import Mathlib

/-!
Verification of `pywa/handlers.py`: the handler/filter dispatch layer and the
callback-data factory resolution of the pywa repository.

The embedding has three parts.

1. Dispatch (`Handler`, `runFilters`, `Handler.__call__`): models
   `Handler.__call__` (handlers.py lines 58-60), which evaluates
   `all((f(wa, data) for f in self.filters))` and, when it is true, calls
   `self.handler(wa, data)`.  Python's `all` over a generator evaluates the
   filters strictly left to right and stops at the first `False`.  To make
   evaluation order and exception flow observable, filters and callbacks are
   modelled as state transformers that may also raise: a filter is
   `Ctx → Upd → σ → Except ε (Bool × σ)` where `σ` threads whatever side
   effects a filter performs (e.g. a counting stub) and `ε` is the type of
   raised exceptions.  A Python function with no `return` returns `None`,
   so `__call__` yields the value `Val.vnone` on every non-raising path.

2. Factory resolution (`resolveCallbackData` and the
   `CallbackButtonHandler`/`CallbackSelectionHandler` constructors): models
   `_resolve_callback_data` (handlers.py lines 24-40) over a universe
   `FactoryVal` of the Python values relevant as `factory` arguments.  The
   Python builtins probed by the source are modelled with their real CPython
   semantics: `issubclass(x, CallbackData)` raises `TypeError` when `x` is
   not a class; every class object is callable; only tuple/list instances
   are `Iterable` instances here.

3. Routing tags: the five class-level `__handler_type__` strings.

`CallbackData`, `CALLBACK_SEP`, `pywa.filters.callback.data_startswith` and
the update/client types live in modules of the repository that are not part
of the sources here; they are modelled from the spec where noted.
-/

/-- Universe of decoded Python values produced by the various decoders
(`None`, strings, ints, tuples).  Rich enough for the claims at hand. -/
inductive Val where
  | vnone : Val
  | vstr : String → Val
  | vint : Int → Val
  | vtuple : List Val → Val

/-- Kinds of Python exception raised by the code under study:
`TypeError` (raised by `issubclass` on a non-class argument, by calling a
function with the wrong arity, and by subscripting a function object) and
`ValueError` (the explicit `raise ValueError(f"Unsupported factory type ...")`
at handlers.py line 39). -/
inductive PyErr where
  | typeError : PyErr
  | valueError : PyErr
deriving DecidableEq, Repr

/-- The base `Handler` class (handlers.py lines 43-56): it stores the
callback (`self.handler`) and the filter chain (`self.filters`), in that
order, exactly as registered.  `F` is the type of a stored filter and `H`
the type of the stored callback; the typed variants and the dispatch
semantics instantiate them. -/
structure Handler (F H : Type) where
  handler : H
  filters : List F

/-- An effectful filter: gets the client context and the update, reads and
updates an instrumentation state `σ` (so that "this filter was evaluated"
is observable), returns its boolean or raises an exception `ε`. -/
abbrev EffFilter (Ctx Upd σ ε : Type) := Ctx → Upd → σ → Except ε (Bool × σ)

/-- An effectful callback: like `EffFilter` but returns an arbitrary value
(which `__call__` discards, since Python discards `self.handler(wa, data)`). -/
abbrev EffCallback (Ctx Upd σ ε : Type) := Ctx → Upd → σ → Except ε (Val × σ)

/-- `all((f(wa, data) for f in filters))` from handlers.py line 59: evaluate
the filters left to right in stored order, short-circuiting at the first
`false`; an exception raised by a filter aborts the whole evaluation. -/
def runFilters {Ctx Upd σ ε : Type} :
    List (EffFilter Ctx Upd σ ε) → Ctx → Upd → σ → Except ε (Bool × σ)
  | [], _, _, s => .ok (true, s)
  | f :: fs, wa, data, s =>
    match f wa data s with
    | .error e => .error e
    | .ok (b, s') => if b then runFilters fs wa data s' else .ok (false, s')

/-- `Handler.__call__` (handlers.py lines 58-60):
`if all((f(wa, data) for f in self.filters)): self.handler(wa, data)`.
The method body has no `return`, so on every non-raising path the produced
Python value is `None` (`Val.vnone`); the callback's own return value is
discarded. -/
def Handler.__call__ {Ctx Upd σ ε : Type}
    (self : Handler (EffFilter Ctx Upd σ ε) (EffCallback Ctx Upd σ ε))
    (wa : Ctx) (data : Upd) (s : σ) : Except ε (Val × σ) :=
  match runFilters self.filters wa data s with
  | .error e => .error e
  | .ok (b, s') =>
    if b then
      match self.handler wa data s' with
      | .error e => .error e
      | .ok (_, s'') => .ok (Val.vnone, s'')
    else .ok (Val.vnone, s')

/-- Lift a pure predicate (the spec's notion of a filter: a side-effect-free
`Fn(context, update) → Bool`) into the effectful filter type. -/
def pureFilter {Ctx Upd σ ε : Type} (f : Ctx → Upd → Bool) : EffFilter Ctx Upd σ ε :=
  fun wa data s => .ok (f wa data, s)

/-- Modelled from the spec: the `WhatsApp` client object (`pywa.client` is
not among the sources).  Per the spec it is "an opaque handle to the outer
client (used only to pass through to filters/callbacks, never inspected)". -/
structure WhatsApp

/-- Modelled from the spec: the callback update payload (`CallbackButton` /
`CallbackSelection` from `pywa.types`, not among the sources).  This layer
reads only its raw callback-data string. -/
structure CallbackUpdate where
  data : String
deriving DecidableEq, Repr

/-- The filter type stored by the callback handlers:
`Callable[[WhatsApp, Any], bool]`, specialised to callback updates. -/
abbrev CbFilter := WhatsApp → CallbackUpdate → Bool

/-- The callback type stored by the callback handlers. -/
abbrev CbCallback := WhatsApp → CallbackUpdate → Val

/-- Modelled from the spec: `CALLBACK_SEP` from `pywa.types.callback` (not
among the sources) is "a fixed single-character separator", "a fixed
external constant".  Its concrete value is unspecified; the spec's examples
use `~`. -/
def CALLBACK_SEP : String := "~"

/-- Modelled from the spec: `fil.callback.data_startswith` (`pywa.filters`
is not among the sources).  Per the spec, the derived filter "checks whether
the update's raw callback string starts with `id` followed by the fixed
separator (or equals `id` exactly for zero-argument identifiers)". -/
def data_startswith (cid : String) : CbFilter :=
  fun _ u => u.data.startsWith (cid ++ CALLBACK_SEP) || u.data == cid

/-- Modelled from the spec: a subclass of `CallbackData`
(`pywa.types.callback` is not among the sources) — an ordinary Python class
that "carries a unique string identifier" (`__callback_id__`, which
handlers.py line 29 casts to `str`) and a self-decoding function `from_str`. -/
structure CBDataClass where
  callback_id : String
  from_str : String → Val

/-- The Python values that can be passed as the `factory` argument:
a `CallbackData` subclass, any other class (e.g. `str`, the default, whose
call decodes a string), a plain non-class callable (a function or lambda),
a tuple/list of factories, or a non-callable non-iterable scalar such as
`42`. -/
inductive FactoryVal where
  | cbType (c : CBDataClass)
  | plainClass (name : String) (call : String → Val)
  | func (f : String → Val)
  | seq (elems : List FactoryVal)
  | scalar (n : Int)

/-- The resolved `factories` object returned by `_resolve_callback_data`:
one of the bound method `factory.from_str` (line 28), the factory object
itself stored unchanged (line 31), or the tuple-decoding lambda closing over
the element sequence (line 35). -/
inductive PyCallable where
  | boundFromStr (c : CBDataClass)
  | factoryItself (v : FactoryVal)
  | seqLambda (elems : List FactoryVal)

/-- CPython semantics of `issubclass(factory, CallbackData)` (handlers.py
lines 27 and 33-34): when `factory` is a class, answer the subclass question
(returning the subclass data when true); when `factory` is not a class — a
function, a tuple/list instance, an int — raise
`TypeError: issubclass() arg 1 must be a class`. -/
def asCBSubclass : FactoryVal → Except PyErr (Option CBDataClass)
  | .cbType c => .ok (some c)
  | .plainClass _ _ => .ok none
  | .func _ => .error .typeError
  | .seq _ => .error .typeError
  | .scalar _ => .error .typeError

/-- CPython semantics of `callable(factory)` (handlers.py line 30): every
class object is callable (its metaclass defines `__call__`), functions are
callable, tuple/list instances and ints are not. -/
def FactoryVal.isCallable : FactoryVal → Bool
  | .cbType _ => true
  | .plainClass _ _ => true
  | .func _ => true
  | .seq _ => false
  | .scalar _ => false

/-- CPython semantics of `isinstance(factory, Iterable)` (handlers.py
line 32): tuple/list instances are iterable; class objects, functions and
ints are not. -/
def FactoryVal.isIterable : FactoryVal → Bool
  | .seq _ => true
  | _ => false

/-- Handlers.py line 34:
`callback_datas = tuple(bool(issubclass(f, CallbackData)) for f in factory)`.
The `tuple(...)` call evaluates `issubclass` eagerly on every element, so a
non-class element raises `TypeError` here. -/
def seqSubclassFlags (elems : List FactoryVal) : Except PyErr (List Bool) :=
  elems.mapM (fun f => Except.map Option.isSome (asCBSubclass f))

/-- `_resolve_callback_data` (handlers.py lines 24-40), with CPython
semantics for the probed builtins.  Branches, in source order:

* line 27 `if issubclass(factory, CallbackData):` — raises `TypeError`
  outright when `factory` is not a class; when true, line 28 stores the
  bound method `factory.from_str` and line 29 derives
  `fil.callback.data_startswith(factory.__callback_id__)`;
* line 30 `elif callable(factory):` — line 31 stores `factory` itself, no
  derived filter.  Since every class is callable, every class that is not a
  `CallbackData` subclass lands here;
* line 32 `elif isinstance(factory, Iterable):` — dead code: an iterable
  instance is not a class, so line 27 already raised.  Modelled faithfully
  anyway: line 34 raises `TypeError` if some element is not a class;
  line 37, reached when `any(callback_datas)`, evaluates
  `factories[callback_datas.index(True)]`, which subscripts the lambda
  bound to `factories` at line 35 and therefore raises
  `TypeError: 'function' object is not subscriptable`; otherwise the
  lambda is returned with no derived filter;
* line 38 `else: raise ValueError(...)` — also dead code, for the same
  reason.

Line 40 returns `(factories, (clb_filter,) if clb_filter else ())`; the
filter component is modelled as a `List CbFilter` of length 0 or 1. -/
def resolveCallbackData (factory : FactoryVal) :
    Except PyErr (PyCallable × List CbFilter) :=
  match asCBSubclass factory with
  | .error e => .error e
  | .ok (some c) => .ok (.boundFromStr c, [data_startswith c.callback_id])
  | .ok none =>
    if factory.isCallable then
      .ok (.factoryItself factory, [])
    else if factory.isIterable then
      match factory with
      | .seq elems =>
        match seqSubclassFlags elems with
        | .error e => .error e
        | .ok flags =>
          if flags.any (fun b => b) then .error .typeError
          else .ok (.seqLambda elems, [])
      | _ => .error .typeError
    else
      .error .valueError

/-- `CallbackButtonHandler` (handlers.py lines 90-117): a `Handler` that
additionally stores the resolved factory (`self.factory`, line 116) for
external use. -/
structure CallbackButtonHandler extends Handler CbFilter CbCallback where
  factory : PyCallable

/-- `CallbackButtonHandler.__init__` (handlers.py lines 110-117):
`self.factory, clb_filter = _resolve_callback_data(factory)` followed by
`super().__init__(handler, *clb_filter, *filters)` — the derived filter, if
any, is placed before every user-supplied filter.  An exception raised by
the resolution propagates out of the constructor. -/
def CallbackButtonHandler.__init__ (handler : CbCallback) (filters : List CbFilter)
    (factory : FactoryVal) : Except PyErr CallbackButtonHandler :=
  match resolveCallbackData factory with
  | .error e => .error e
  | .ok (fac, clb_filter) => .ok ⟨⟨handler, clb_filter ++ filters⟩, fac⟩

/-- `CallbackSelectionHandler` (handlers.py lines 120-147): identical
structure to `CallbackButtonHandler`. -/
structure CallbackSelectionHandler extends Handler CbFilter CbCallback where
  factory : PyCallable

/-- `CallbackSelectionHandler.__init__` (handlers.py lines 140-147): same
body as `CallbackButtonHandler.__init__`. -/
def CallbackSelectionHandler.__init__ (handler : CbCallback) (filters : List CbFilter)
    (factory : FactoryVal) : Except PyErr CallbackSelectionHandler :=
  match resolveCallbackData factory with
  | .error e => .error e
  | .ok (fac, clb_filter) => .ok ⟨⟨handler, clb_filter ++ filters⟩, fac⟩

/-- The default value of the `factory` parameter (handlers.py lines 114 and
144): the builtin class `str`, whose call decodes a string to itself. -/
def strFactory : FactoryVal := .plainClass "str" Val.vstr

/-- Class-level routing tag of `MessageHandler` (handlers.py line 80). -/
def MessageHandler.__handler_type__ : String := "message"

/-- Class-level routing tag of `CallbackButtonHandler` (handlers.py line 108). -/
def CallbackButtonHandler.__handler_type__ : String := "button"

/-- Class-level routing tag of `CallbackSelectionHandler` (handlers.py line 138). -/
def CallbackSelectionHandler.__handler_type__ : String := "selection"

/-- Class-level routing tag of `MessageStatusHandler` (handlers.py line 167). -/
def MessageStatusHandler.__handler_type__ : String := "message_status"

/-- Class-level routing tag of `RawUpdateHandler` (handlers.py line 195). -/
def RawUpdateHandler.__handler_type__ : String := "raw_update"

/-- The five class-level routing tags, in source order. -/
def allHandlerTypes : List String :=
  [MessageHandler.__handler_type__, CallbackButtonHandler.__handler_type__,
   CallbackSelectionHandler.__handler_type__, MessageStatusHandler.__handler_type__,
   RawUpdateHandler.__handler_type__]

theorem runFilters_append {Ctx Upd σ ε : Type}
    (pre rest : List (EffFilter Ctx Upd σ ε)) (wa : Ctx) (d : Upd) (s : σ) :
    runFilters (pre ++ rest) wa d s =
      match runFilters pre wa d s with
      | .error e => .error e
      | .ok (true, s') => runFilters rest wa d s'
      | .ok (false, s') => .ok (false, s') := by
  induction pre generalizing s with
  | nil => rfl
  | cons f fs ih =>
    cases hf : f wa d s with
    | error e => simp [runFilters, hf]
    | ok p =>
      obtain ⟨b, s'⟩ := p
      cases b with
      | true => simp [runFilters, hf, ih]
      | false => simp [runFilters, hf]

theorem runFilters_pure {Ctx Upd σ ε : Type}
    (fs : List (Ctx → Upd → Bool)) (wa : Ctx) (d : Upd) (s : σ) :
    runFilters (ε := ε) (fs.map pureFilter) wa d s = .ok (fs.all (fun f => f wa d), s) := by
  induction fs with
  | nil => rfl
  | cons f fs ih =>
    cases hb : f wa d with
    | true => simp [runFilters, pureFilter, hb, ih]
    | false => simp [runFilters, pureFilter, hb]

/-- Claim C1: for every handler, every filter chain and every
(context, update) pair, `__call__` evaluates the filters left to right in
registration order; if the filter at position `k` (here: the filter `f`
sitting after the prefix `pre` of length `k`) returns `false`, no filter at
a later position is evaluated and the callback is not invoked.  The
conclusion fixes the entire result — including the instrumentation state
`s₂` produced by the first `k + 1` filters alone — uniformly in `post` and
`cb`, so the filters after position `k` and the callback contribute no
evaluation, no effect and no exception. -/
theorem c1_filters_short_circuit {Ctx Upd σ ε : Type}
    (pre post : List (EffFilter Ctx Upd σ ε)) (f : EffFilter Ctx Upd σ ε)
    (cb : EffCallback Ctx Upd σ ε) (wa : Ctx) (d : Upd) (s s₁ s₂ : σ)
    (hpre : runFilters pre wa d s = .ok (true, s₁))
    (hf : f wa d s₁ = .ok (false, s₂)) :
    Handler.__call__ ⟨cb, pre ++ f :: post⟩ wa d s = .ok (Val.vnone, s₂) := by
  have h1 : runFilters (pre ++ f :: post) wa d s = .ok (false, s₂) := by
    rw [runFilters_append, hpre]
    simp [runFilters, hf]
  simp [Handler.__call__, h1]

/-- Witness for C1: three counting stub filters (each evaluation bumps the
state); the second returns `false`, so the result state is `2` — the third
filter (which would add `100`) and the callback (which would add `1000`)
leave no trace. -/
theorem c1_filters_short_circuit_witness :
    runFilters [((fun _ _ n => .ok (true, n + 1)) : EffFilter Unit Unit Nat Unit)] () () 0
        = .ok (true, 1)
  ∧ ((fun _ _ n => .ok (false, n + 1)) : EffFilter Unit Unit Nat Unit) () () 1 = .ok (false, 2)
  ∧ Handler.__call__
      ⟨((fun _ _ n => .ok (Val.vnone, n + 1000)) : EffCallback Unit Unit Nat Unit),
        [((fun _ _ n => .ok (true, n + 1)) : EffFilter Unit Unit Nat Unit)] ++
          ((fun _ _ n => .ok (false, n + 1)) : EffFilter Unit Unit Nat Unit) ::
            [((fun _ _ n => .ok (true, n + 100)) : EffFilter Unit Unit Nat Unit)]⟩
      () () 0 = .ok (Val.vnone, 2) :=
  ⟨rfl, rfl, c1_filters_short_circuit _ _ _ _ _ _ _ _ _ rfl rfl⟩

/-- Claim C7: with an empty stored filter sequence, `__call__` invokes the
callback exactly once, with exactly the `(context, update)` pair it was
given (first conjunct: the result is one application of `cb` to
`(wa, data)` on the given state, its return value discarded); more
generally, for pure filters the callback is invoked precisely when every
stored filter returns `true` (second conjunct). -/
theorem c7_empty_filters_invoke (Ctx Upd σ ε : Type) :
    (∀ (cb : EffCallback Ctx Upd σ ε) (wa : Ctx) (d : Upd) (s : σ),
        Handler.__call__ ⟨cb, []⟩ wa d s =
          match cb wa d s with
          | .error e => .error e
          | .ok (_, s') => .ok (Val.vnone, s'))
  ∧ (∀ (cb : EffCallback Ctx Upd σ ε) (fs : List (Ctx → Upd → Bool))
        (wa : Ctx) (d : Upd) (s : σ),
        Handler.__call__ ⟨cb, fs.map pureFilter⟩ wa d s =
          if fs.all (fun f => f wa d) then
            match cb wa d s with
            | .error e => .error e
            | .ok (_, s') => .ok (Val.vnone, s')
          else .ok (Val.vnone, s)) := by
  constructor
  · intro cb wa d s
    cases hc : cb wa d s with
    | error e => simp [Handler.__call__, runFilters, hc]
    | ok p =>
      obtain ⟨v, s'⟩ := p
      simp [Handler.__call__, runFilters, hc]
  · intro cb fs wa d s
    cases hall : fs.all (fun f => f wa d) with
    | true =>
      cases hc : cb wa d s with
      | error e => simp [Handler.__call__, runFilters_pure, hall, hc]
      | ok p =>
        obtain ⟨v, s'⟩ := p
        simp [Handler.__call__, runFilters_pure, hall, hc]
    | false => simp [Handler.__call__, runFilters_pure, hall]

/-- Claim C8: `__call__` produces no return value (every non-raising run
returns Python's `None`, first conjunct), and exceptions are never caught,
wrapped or suppressed: an exception raised by a filter that is reached
propagates unmodified (second conjunct), and an exception raised by the
callback after all filters passed propagates unmodified (third conjunct). -/
theorem c8_exception_transparent (Ctx Upd σ ε : Type) :
    (∀ (h : Handler (EffFilter Ctx Upd σ ε) (EffCallback Ctx Upd σ ε))
        (wa : Ctx) (d : Upd) (s : σ) (v : Val) (s' : σ),
        Handler.__call__ h wa d s = .ok (v, s') → v = Val.vnone)
  ∧ (∀ (pre post : List (EffFilter Ctx Upd σ ε)) (f : EffFilter Ctx Upd σ ε)
        (cb : EffCallback Ctx Upd σ ε) (wa : Ctx) (d : Upd) (s s₁ : σ) (e : ε),
        runFilters pre wa d s = .ok (true, s₁) → f wa d s₁ = .error e →
        Handler.__call__ ⟨cb, pre ++ f :: post⟩ wa d s = .error e)
  ∧ (∀ (fs : List (EffFilter Ctx Upd σ ε)) (cb : EffCallback Ctx Upd σ ε)
        (wa : Ctx) (d : Upd) (s s₁ : σ) (e : ε),
        runFilters fs wa d s = .ok (true, s₁) → cb wa d s₁ = .error e →
        Handler.__call__ ⟨cb, fs⟩ wa d s = .error e) := by
  refine ⟨?_, ?_, ?_⟩
  · intro h wa d s v s' heq
    unfold Handler.__call__ at heq
    cases hr : runFilters h.filters wa d s with
    | error e => rw [hr] at heq; simp at heq
    | ok p =>
      obtain ⟨b, s₁⟩ := p
      rw [hr] at heq
      cases b with
      | false =>
        simp at heq
        exact heq.1.symm
      | true =>
        cases hh : h.handler wa d s₁ with
        | error e => simp [hh] at heq
        | ok q =>
          obtain ⟨v₀, s₂⟩ := q
          simp [hh] at heq
          exact heq.1.symm
  · intro pre post f cb wa d s s₁ e hpre hf
    have h1 : runFilters (pre ++ f :: post) wa d s = .error e := by
      rw [runFilters_append, hpre]
      simp [runFilters, hf]
    simp [Handler.__call__, h1]
  · intro fs cb wa d s s₁ e hfs hcb
    simp [Handler.__call__, hfs, hcb]

/-- Witness for C8: a raising filter's exception (second conjunct) and a
raising callback's exception (third conjunct) come out of `__call__`
unchanged; the first conjunct is applied to a succeeding run. -/
theorem c8_exception_transparent_witness :
    Handler.__call__
        ⟨((fun _ _ n => .ok (Val.vint 7, n + 5)) : EffCallback Unit Unit Nat String), []⟩
        () () 0 = .ok (Val.vnone, 5)
  ∧ Val.vnone = Val.vnone
  ∧ Handler.__call__
      ⟨((fun _ _ n => .ok (Val.vnone, n)) : EffCallback Unit Unit Nat String),
        ([] : List (EffFilter Unit Unit Nat String)) ++
          ((fun _ _ _ => .error "boom") : EffFilter Unit Unit Nat String) :: []⟩
      () () 0 = .error "boom"
  ∧ Handler.__call__
      ⟨((fun _ _ _ => .error "crash") : EffCallback Unit Unit Nat String),
        [((fun _ _ n => .ok (true, n + 1)) : EffFilter Unit Unit Nat String)]⟩
      () () 0 = .error "crash" :=
  ⟨rfl,
   (c8_exception_transparent Unit Unit Nat String).1
     ⟨((fun _ _ n => .ok (Val.vint 7, n + 5)) : EffCallback Unit Unit Nat String), []⟩
     () () 0 Val.vnone 5 rfl,
   (c8_exception_transparent Unit Unit Nat String).2.1 [] [] _ _ () () 0 0 "boom" rfl rfl,
   (c8_exception_transparent Unit Unit Nat String).2.2 _ _ () () 0 1 "crash" rfl rfl⟩

theorem resolve_filters_le_one (factory : FactoryVal) (dec : PyCallable)
    (dfs : List CbFilter) (heq : resolveCallbackData factory = .ok (dec, dfs)) :
    dfs.length ≤ 1 := by
  cases factory with
  | cbType c =>
    simp only [resolveCallbackData, asCBSubclass, Except.ok.injEq, Prod.mk.injEq] at heq
    rw [← heq.2]
    simp
  | plainClass name call =>
    simp only [resolveCallbackData, asCBSubclass, FactoryVal.isCallable, if_true,
      Except.ok.injEq, Prod.mk.injEq] at heq
    rw [← heq.2]
    simp
  | func f => simp [resolveCallbackData, asCBSubclass] at heq
  | seq elems => simp [resolveCallbackData, asCBSubclass] at heq
  | scalar n => simp [resolveCallbackData, asCBSubclass] at heq

/-- Claim C2: for a structured-data factory (a `CallbackData` subclass `c`),
both callback handler constructors resolve the decode function to the
type's own bound `from_str` method, derive exactly one prefix filter
`data_startswith c.callback_id` from the type's `__callback_id__`, place
that derived filter first — before every user-supplied filter — and store
the resolved decode function on the handler's `factory` attribute. -/
theorem c2_cbtype_factory_resolution (c : CBDataClass) (cb : CbCallback)
    (ufs : List CbFilter) :
    CallbackButtonHandler.__init__ cb ufs (.cbType c)
        = .ok ⟨⟨cb, data_startswith c.callback_id :: ufs⟩, .boundFromStr c⟩
  ∧ CallbackSelectionHandler.__init__ cb ufs (.cbType c)
        = .ok ⟨⟨cb, data_startswith c.callback_id :: ufs⟩, .boundFromStr c⟩ :=
  ⟨rfl, rfl⟩

/-- Claim C3 (refuting evidence): for a sequence factory, the resolved
decode function never comes into existence — `_resolve_callback_data`
raises `TypeError` at line 27, because CPython's
`issubclass(factory, CallbackData)` requires its first argument to be a
class and a tuple instance is not one.  Shown here on the two-element
sequence `(str, str)`; the claimed positional decoding therefore never
happens for any sequence factory. -/
theorem c3_seq_factory_raises :
    resolveCallbackData (.seq [.plainClass "str" Val.vstr, .plainClass "str" Val.vstr])
      = .error .typeError := rfl

/-- Claim C4 (refuting evidence): for a sequence factory containing a
structured-data type — here `(TypeA, plain)` with `TypeA` carrying
identifier `"id"` — no prefix filter is derived: construction raises
`TypeError` at line 27 (a tuple is not a class).  Even if that guard were
passed, line 37 evaluates `factories[callback_datas.index(True)]`, which
subscripts the decode lambda bound at line 35, another `TypeError`. -/
theorem c4_seq_with_cbtype_raises :
    resolveCallbackData (.seq [.cbType ⟨"id", Val.vstr⟩, .func Val.vstr])
      = .error .typeError := rfl

/-- Claim C5 (refuting evidence): constructing a handler with `factory=42`
raises `TypeError` (from `issubclass(42, CallbackData)` at line 27, since
`42` is not a class) — not the `ValueError("Unsupported factory type ...")`
at line 39 that the spec names `InvalidFactorySpecError`; that `else`
branch is unreachable.  The error is still synchronous, at construction. -/
theorem c5_scalar_factory_raises_typeError :
    CallbackButtonHandler.__init__ (fun _ _ => Val.vnone) [] (.scalar 42)
        = .error .typeError
  ∧ CallbackSelectionHandler.__init__ (fun _ _ => Val.vnone) [] (.scalar 42)
        = .error .typeError :=
  ⟨rfl, rfl⟩

/-- Claim C6 (partial confirmation and refuting evidence): for a factory
that is a plain *class* used as a decoder — in particular the default
`str` — resolution stores the factory object itself as the decode function
and derives no filter, so the constructed handler's chain is exactly the
user-supplied filters in order (first conjunct).  But for a plain callable
that is not a class (a function or lambda), resolution raises `TypeError`
at line 27 instead (second conjunct), so the claim's "every plain decoding
callable" fails. -/
theorem c6_plain_callable_factory :
    (∀ (cb : CbCallback) (ufs : List CbFilter),
        CallbackButtonHandler.__init__ cb ufs strFactory
          = .ok ⟨⟨cb, ufs⟩, .factoryItself strFactory⟩)
  ∧ resolveCallbackData (.func Val.vstr) = .error .typeError :=
  ⟨fun _ _ => rfl, rfl⟩

/-- Claim C9: each of the five typed handler variants carries a class-level
routing tag (modelled as a constant independent of any constructor
argument, hence inspectable at registration time), and the five tag values
are pairwise distinct. -/
theorem c9_handler_types_distinct :
    allHandlerTypes = ["message", "button", "selection", "message_status", "raw_update"]
  ∧ allHandlerTypes.Nodup := by
  exact ⟨rfl, by decide⟩

/-- Claim C10: whenever factory resolution succeeds, the derived-filter
component has length zero or one; consequently every successfully
constructed `CallbackButtonHandler` or `CallbackSelectionHandler` has a
filter chain equal to the user-supplied filters preceded by at most one
derived filter. -/
theorem c10_at_most_one_derived_filter :
    (∀ (factory : FactoryVal) (dec : PyCallable) (dfs : List CbFilter),
        resolveCallbackData factory = .ok (dec, dfs) → dfs.length ≤ 1)
  ∧ (∀ (cb : CbCallback) (ufs : List CbFilter) (factory : FactoryVal)
        (h : CallbackButtonHandler),
        CallbackButtonHandler.__init__ cb ufs factory = .ok h →
        ∃ dfs : List CbFilter, dfs.length ≤ 1 ∧ h.filters = dfs ++ ufs)
  ∧ (∀ (cb : CbCallback) (ufs : List CbFilter) (factory : FactoryVal)
        (h : CallbackSelectionHandler),
        CallbackSelectionHandler.__init__ cb ufs factory = .ok h →
        ∃ dfs : List CbFilter, dfs.length ≤ 1 ∧ h.filters = dfs ++ ufs) := by
  refine ⟨resolve_filters_le_one, ?_, ?_⟩
  · intro cb ufs factory h heq
    unfold CallbackButtonHandler.__init__ at heq
    cases hr : resolveCallbackData factory with
    | error e => rw [hr] at heq; simp at heq
    | ok p =>
      obtain ⟨fac, dfs⟩ := p
      rw [hr] at heq
      obtain rfl := Except.ok.inj heq
      exact ⟨dfs, resolve_filters_le_one factory fac dfs hr, rfl⟩
  · intro cb ufs factory h heq
    unfold CallbackSelectionHandler.__init__ at heq
    cases hr : resolveCallbackData factory with
    | error e => rw [hr] at heq; simp at heq
    | ok p =>
      obtain ⟨fac, dfs⟩ := p
      rw [hr] at heq
      obtain rfl := Except.ok.inj heq
      exact ⟨dfs, resolve_filters_le_one factory fac dfs hr, rfl⟩

/-- Witness for C10: a concrete structured-data factory with identifier
`"i"` and one user filter; the constructed handler's chain is the derived
filter followed by the user filter. -/
theorem c10_at_most_one_derived_filter_witness :
    CallbackButtonHandler.__init__ (fun _ _ => Val.vnone) [data_startswith "u"]
        (.cbType ⟨"i", Val.vstr⟩)
      = .ok ⟨⟨fun _ _ => Val.vnone, data_startswith "i" :: [data_startswith "u"]⟩,
             .boundFromStr ⟨"i", Val.vstr⟩⟩
  ∧ ∃ dfs : List CbFilter, dfs.length ≤ 1 ∧
      (⟨⟨fun _ _ => Val.vnone, data_startswith "i" :: [data_startswith "u"]⟩,
        .boundFromStr ⟨"i", Val.vstr⟩⟩ : CallbackButtonHandler).filters
        = dfs ++ [data_startswith "u"] :=
  ⟨rfl,
   c10_at_most_one_derived_filter.2.1 (fun _ _ => Val.vnone) [data_startswith "u"]
     (.cbType ⟨"i", Val.vstr⟩) _ rfl⟩
